import Mathlib

/-
Verification of the aquacomputer-quadro hwmon driver (src/aquacomputer-quadro.c)
against its natural-language specification.

The development shallowly embeds the driver's core: the report decoder
(quadro_raw_event), the staleness-gated read path (quadro_read), the label
path (quadro_read_string), the channel registry (quadro_info channel counts),
and the probe-time state initialization (quadro_probe).

Modelling conventions:
- a raw HID report buffer is a `List Nat` of bytes (each `< 256` when
  well-formed, captured by `bytesWf`);
- machine-integer storage is modelled by explicit reductions: `u16cast`
  (`% 2^16`), `u32cast` (`% 2^32`) and `s32cast` (two's-complement wrap of a
  32-bit signed store), matching the C struct field types of `quadro_data`;
- `jiffies` time is a `Nat`; `time_after (a) (b)` is `b < a`, the non-wrapping
  reading of the kernel macro (valid while timestamps stay within half the
  counter range, which is the regime all claims are about);
- `HZ` (kernel ticks per second) is kept as an explicit parameter `hz`.
-/

namespace Quadro

/-! ## Constants from the source (macros) -/

def QUADRO_STATUS_REPORT_ID : Nat := 1

/-- QUADRO_STATUS_UPDATE_INTERVAL = 2 * HZ jiffies (two nominal one-second
report intervals). -/
def QUADRO_STATUS_UPDATE_INTERVAL (hz : Nat) : Nat := 2 * hz

def QUADRO_SERIAL_FIRST_PART : Nat := 3
def QUADRO_SERIAL_SECOND_PART : Nat := 5
def QUADRO_FIRMWARE_VERSION : Nat := 13
def QUADRO_POWER_CYCLES : Nat := 24

def QUADRO_TEMP1 : Nat := 52
def QUADRO_TEMP2 : Nat := 54
def QUADRO_TEMP3 : Nat := 56
def QUADRO_TEMP4 : Nat := 58

def QUADRO_FLOW_SPEED : Nat := 110
def QUADRO_FAN1_SPEED : Nat := 120
def QUADRO_FAN2_SPEED : Nat := 133
def QUADRO_FAN3_SPEED : Nat := 146
def QUADRO_FAN4_SPEED : Nat := 159

def QUADRO_FAN1_POWER : Nat := 118
def QUADRO_FAN2_POWER : Nat := 131
def QUADRO_FAN3_POWER : Nat := 144
def QUADRO_FAN4_POWER : Nat := 157

def QUADRO_VOLTAGE : Nat := 108
def QUADRO_FAN1_VOLTAGE : Nat := 114
def QUADRO_FAN2_VOLTAGE : Nat := 127
def QUADRO_FAN3_VOLTAGE : Nat := 140
def QUADRO_FAN4_VOLTAGE : Nat := 153

def QUADRO_FAN1_CURRENT : Nat := 116
def QUADRO_FAN2_CURRENT : Nat := 129
def QUADRO_FAN3_CURRENT : Nat := 142
def QUADRO_FAN4_CURRENT : Nat := 155

/-! ## Byte buffers and machine-integer stores -/

/-- A well-formed raw byte buffer: every entry is an actual byte value. -/
def bytesWf (data : List Nat) : Prop := ∀ b ∈ data, b < 256

instance (data : List Nat) : Decidable (bytesWf data) :=
  List.decidableBAll _ data

/-- get_unaligned_be16: two bytes at `off`, big-endian.  Out-of-range
accesses default to 0 in the model; the C original performs the memory access
unconditionally (see `quadro_bytes_read` for the access footprint). -/
def get_unaligned_be16 (data : List Nat) (off : Nat) : Nat :=
  256 * data.getD off 0 + data.getD (off + 1) 0

/-- get_unaligned_be32: four bytes at `off`, big-endian. -/
def get_unaligned_be32 (data : List Nat) (off : Nat) : Nat :=
  16777216 * data.getD off 0 + 65536 * data.getD (off + 1) 0 +
    256 * data.getD (off + 2) 0 + data.getD (off + 3) 0

/-- Store into a `u16` struct field: reduction modulo 2^16. -/
def u16cast (n : Nat) : Nat := n % 65536

/-- Store into a `u32` struct field: reduction modulo 2^32. -/
def u32cast (n : Nat) : Nat := n % 4294967296

/-- Store a non-negative C `int` expression into an `s32` struct field:
two's-complement wrap at 32 bits. -/
def s32cast (n : Nat) : Int :=
  if n % 4294967296 < 2147483648 then ((n % 4294967296 : Nat) : Int)
  else ((n % 4294967296 : Nat) : Int) - 4294967296

/-! ## Device state (struct quadro_data) -/

/-- The sensor/identity portion of `struct quadro_data`.  The C arrays are
modelled as lists of the stated fixed lengths; `updated` is the jiffies
timestamp of the last accepted report.  Field integer types follow the C
declaration: `s32 temp_input[4]; u16 speed_input[5]; u32 power_input[4];
u16 voltage_input[5]; u16 current_input[4]; u32 serial_number[2];
u16 firmware_version; u32 power_cycles; unsigned long updated;`. -/
structure quadro_data where
  temp_input : List Int
  speed_input : List Nat
  power_input : List Nat
  voltage_input : List Nat
  current_input : List Nat
  serial_number : List Nat
  firmware_version : Nat
  power_cycles : Nat
  updated : Nat
deriving DecidableEq, Repr

/-! ## Report decoder (quadro_raw_event) -/

/-- quadro_raw_event: ignores reports whose id differs from
QUADRO_STATUS_REPORT_ID (returns 0, state untouched); otherwise decodes every
field at its fixed offset, applies the per-field scaling, and stamps
`updated` with the current jiffies.  Note the C function performs no check of
`size` against the offsets it reads. -/
def quadro_raw_event (report_id : Nat) (data : List Nat) (jiffies : Nat)
    (priv : quadro_data) : Int × quadro_data :=
  if report_id ≠ QUADRO_STATUS_REPORT_ID then
    (0, priv)
  else
    (0,
      { serial_number :=
          [u32cast (get_unaligned_be16 data QUADRO_SERIAL_FIRST_PART),
           u32cast (get_unaligned_be16 data QUADRO_SERIAL_SECOND_PART)],
        firmware_version := u16cast (get_unaligned_be16 data QUADRO_FIRMWARE_VERSION),
        power_cycles := u32cast (get_unaligned_be32 data QUADRO_POWER_CYCLES),
        temp_input :=
          [s32cast (get_unaligned_be16 data QUADRO_TEMP1 * 10),
           s32cast (get_unaligned_be16 data QUADRO_TEMP2 * 10),
           s32cast (get_unaligned_be16 data QUADRO_TEMP3 * 10),
           s32cast (get_unaligned_be16 data QUADRO_TEMP4 * 10)],
        speed_input :=
          [u16cast (get_unaligned_be16 data QUADRO_FLOW_SPEED / 10),
           u16cast (get_unaligned_be16 data QUADRO_FAN1_SPEED),
           u16cast (get_unaligned_be16 data QUADRO_FAN2_SPEED),
           u16cast (get_unaligned_be16 data QUADRO_FAN3_SPEED),
           u16cast (get_unaligned_be16 data QUADRO_FAN4_SPEED)],
        power_input :=
          [u32cast (get_unaligned_be16 data QUADRO_FAN1_POWER * 10000),
           u32cast (get_unaligned_be16 data QUADRO_FAN2_POWER * 10000),
           u32cast (get_unaligned_be16 data QUADRO_FAN3_POWER * 10000),
           u32cast (get_unaligned_be16 data QUADRO_FAN4_POWER * 10000)],
        voltage_input :=
          [u16cast (get_unaligned_be16 data QUADRO_VOLTAGE * 10),
           u16cast (get_unaligned_be16 data QUADRO_FAN1_VOLTAGE * 10),
           u16cast (get_unaligned_be16 data QUADRO_FAN2_VOLTAGE * 10),
           u16cast (get_unaligned_be16 data QUADRO_FAN3_VOLTAGE * 10),
           u16cast (get_unaligned_be16 data QUADRO_FAN4_VOLTAGE * 10)],
        current_input :=
          [u16cast (get_unaligned_be16 data QUADRO_FAN1_CURRENT),
           u16cast (get_unaligned_be16 data QUADRO_FAN2_CURRENT),
           u16cast (get_unaligned_be16 data QUADRO_FAN3_CURRENT),
           u16cast (get_unaligned_be16 data QUADRO_FAN4_CURRENT)],
        updated := jiffies })

/-- All big-endian 16-bit field offsets read by quadro_raw_event. -/
def quadro_be16_offsets : List Nat :=
  [QUADRO_SERIAL_FIRST_PART, QUADRO_SERIAL_SECOND_PART, QUADRO_FIRMWARE_VERSION,
   QUADRO_TEMP1, QUADRO_TEMP2, QUADRO_TEMP3, QUADRO_TEMP4,
   QUADRO_FLOW_SPEED, QUADRO_FAN1_SPEED, QUADRO_FAN2_SPEED, QUADRO_FAN3_SPEED,
   QUADRO_FAN4_SPEED,
   QUADRO_FAN1_POWER, QUADRO_FAN2_POWER, QUADRO_FAN3_POWER, QUADRO_FAN4_POWER,
   QUADRO_VOLTAGE, QUADRO_FAN1_VOLTAGE, QUADRO_FAN2_VOLTAGE, QUADRO_FAN3_VOLTAGE,
   QUADRO_FAN4_VOLTAGE,
   QUADRO_FAN1_CURRENT, QUADRO_FAN2_CURRENT, QUADRO_FAN3_CURRENT,
   QUADRO_FAN4_CURRENT]

/-- Every byte index quadro_raw_event dereferences on a tag-matched report. -/
def quadro_bytes_read : List Nat :=
  quadro_be16_offsets.flatMap (fun o => [o, o + 1]) ++
    [QUADRO_POWER_CYCLES, QUADRO_POWER_CYCLES + 1, QUADRO_POWER_CYCLES + 2,
     QUADRO_POWER_CYCLES + 3]

/-- Minimum buffer length for all dereferences to stay in bounds: the largest
field offset (QUADRO_FAN4_SPEED = 159) plus its 2-byte width, i.e. 161. -/
def quadro_min_report_length : Nat := QUADRO_FAN4_SPEED + 2

/-! ## Sensor kinds and the read paths -/

/-- The hwmon sensor types the driver's quadro_info advertises channels for. -/
inductive hwmon_sensor_types where
  | hwmon_temp
  | hwmon_fan
  | hwmon_power
  | hwmon_in
  | hwmon_curr
deriving DecidableEq, Repr

open hwmon_sensor_types

/-- ENODATA errno (quadro_read returns -ENODATA on stale data). -/
def ENODATA : Int := 61

/-- time_after(a, b): `a` is strictly after `b` (non-wrapping reading of the
kernel macro). -/
def time_after (a b : Nat) : Bool := decide (b < a)

/-- The switch body of quadro_read: the stored scaled value for a channel of
a given type (array indexing modelled by `getD` with default 0; the C code
indexes the arrays unconditionally and is only invoked in bounds by the
hwmon core). -/
def sensor_value (priv : quadro_data) (type : hwmon_sensor_types)
    (channel : Nat) : Int :=
  match type with
  | hwmon_temp => priv.temp_input.getD channel 0
  | hwmon_fan => (priv.speed_input.getD channel 0 : Int)
  | hwmon_power => (priv.power_input.getD channel 0 : Int)
  | hwmon_in => (priv.voltage_input.getD channel 0 : Int)
  | hwmon_curr => (priv.current_input.getD channel 0 : Int)

/-- quadro_read: returns -ENODATA when the last update is older than
QUADRO_STATUS_UPDATE_INTERVAL jiffies, otherwise the stored value for the
requested type/channel. -/
def quadro_read (priv : quadro_data) (type : hwmon_sensor_types)
    (channel : Nat) (jiffies hz : Nat) : Except Int Int :=
  if time_after jiffies (priv.updated + QUADRO_STATUS_UPDATE_INTERVAL hz) then
    Except.error (-ENODATA)
  else
    Except.ok (sensor_value priv type channel)

/-! ## Labels (quadro_read_string) -/

def label_temps : List String :=
  ["Temp1", "Temp2", "Temp3", "Temp4"]

def label_speeds : List String :=
  ["Flow speed [l/h]", "Fan1 speed", "Fan2 speed", "Fan3 speed", "Fan4 speed"]

def label_power : List String :=
  ["Fan1 power", "Fan2 power", "Fan3 power", "Fan4 power"]

def label_voltages : List String :=
  ["VCC", "Fan1 voltage", "Fan2 voltage", "Fan3 voltage", "Fan4 voltage"]

def label_current : List String :=
  ["Fan1 current", "Fan2 current", "Fan3 current", "Fan4 current"]

/-- quadro_read_string: the label for a channel of a given type (array
indexing modelled by `getD` with default ""; only invoked in bounds by the
hwmon core). -/
def quadro_read_string (type : hwmon_sensor_types) (channel : Nat) : String :=
  match type with
  | hwmon_temp => label_temps.getD channel ""
  | hwmon_fan => label_speeds.getD channel ""
  | hwmon_power => label_power.getD channel ""
  | hwmon_in => label_voltages.getD channel ""
  | hwmon_curr => label_current.getD channel ""

/-! ## Channel registry and the framework-gated read API -/

/-- Channels advertised per type by the quadro_info table:
4 temp entries, 5 fan entries, 4 power entries, 5 in entries, 4 curr
entries. -/
def channel_count : hwmon_sensor_types → Nat
  | hwmon_temp => 4
  | hwmon_fan => 5
  | hwmon_power => 4
  | hwmon_in => 5
  | hwmon_curr => 4

/-- Outcome of a registry-gated sensor read. -/
inductive ReadResult where
  | value : Int → ReadResult
  | Stale : ReadResult
  | ChannelNotFound : ReadResult
deriving DecidableEq, Repr

/-- Modelled from the spec: the host hwmon framework (external to src/)
validates each requested (type, channel) against the channels advertised in
quadro_info before invoking the driver's quadro_read callback, and rejects
pairs outside the table with ChannelNotFound; quadro_read's -ENODATA is
surfaced as Stale. -/
def hwmon_read (priv : quadro_data) (type : hwmon_sensor_types)
    (channel jiffies hz : Nat) : ReadResult :=
  if channel < channel_count type then
    match quadro_read priv type channel jiffies hz with
    | Except.ok v => ReadResult.value v
    | Except.error _ => ReadResult.Stale
  else
    ReadResult.ChannelNotFound

/-- Modelled from the spec: the host hwmon framework (external to src/)
validates each requested (type, channel) against quadro_info before invoking
the driver's quadro_read_string callback; invalid pairs yield `none`
(ChannelNotFound). -/
def hwmon_read_label (type : hwmon_sensor_types) (channel : Nat) :
    Option String :=
  if channel < channel_count type then some (quadro_read_string type channel)
  else none

/-! ## Probe-time state (quadro_probe) -/

/-- The device state right after quadro_probe: devm_kzalloc zero-fills every
sensor and identity field, and `updated` is set to
`jiffies - QUADRO_STATUS_UPDATE_INTERVAL` (truncated subtraction stands in
for the wrapping C subtraction; the two agree whenever
`QUADRO_STATUS_UPDATE_INTERVAL hz ≤ attach`). -/
def quadro_probe_state (attach hz : Nat) : quadro_data :=
  { temp_input := [0, 0, 0, 0],
    speed_input := [0, 0, 0, 0, 0],
    power_input := [0, 0, 0, 0],
    voltage_input := [0, 0, 0, 0, 0],
    current_input := [0, 0, 0, 0],
    serial_number := [0, 0],
    firmware_version := 0,
    power_cycles := 0,
    updated := attach - QUADRO_STATUS_UPDATE_INTERVAL hz }

/-! ## Helper constructions for concrete reports -/

/-- A zero-filled buffer of length `n`. -/
def zeros (n : Nat) : List Nat := List.replicate n 0

/-- Write a 16-bit big-endian value into a buffer at `off`. -/
def set_be16 (buf : List Nat) (off val : Nat) : List Nat :=
  (buf.set off (val / 256 % 256)).set (off + 1) (val % 256)

/-! ## Specification predicates over a decoded state -/

/-- The decoded, scaled field values of one report, as functions of the raw
big-endian u16 fields: temperatures ×10 (no wrap: a 16-bit raw ×10 fits the
s32 store), flow speed ÷10 and fan speeds unscaled (fit the u16 store), fan
powers ×10000 (fit the u32 store), voltages ×10 reduced modulo 2^16 (the
store is u16 and can wrap), fan currents unscaled. -/
def decode_matches_table (data : List Nat) (priv : quadro_data) : Prop :=
  priv.temp_input =
    [((get_unaligned_be16 data QUADRO_TEMP1 * 10 : Nat) : Int),
     ((get_unaligned_be16 data QUADRO_TEMP2 * 10 : Nat) : Int),
     ((get_unaligned_be16 data QUADRO_TEMP3 * 10 : Nat) : Int),
     ((get_unaligned_be16 data QUADRO_TEMP4 * 10 : Nat) : Int)] ∧
  priv.speed_input =
    [get_unaligned_be16 data QUADRO_FLOW_SPEED / 10,
     get_unaligned_be16 data QUADRO_FAN1_SPEED,
     get_unaligned_be16 data QUADRO_FAN2_SPEED,
     get_unaligned_be16 data QUADRO_FAN3_SPEED,
     get_unaligned_be16 data QUADRO_FAN4_SPEED] ∧
  priv.power_input =
    [get_unaligned_be16 data QUADRO_FAN1_POWER * 10000,
     get_unaligned_be16 data QUADRO_FAN2_POWER * 10000,
     get_unaligned_be16 data QUADRO_FAN3_POWER * 10000,
     get_unaligned_be16 data QUADRO_FAN4_POWER * 10000] ∧
  priv.voltage_input =
    [get_unaligned_be16 data QUADRO_VOLTAGE * 10 % 65536,
     get_unaligned_be16 data QUADRO_FAN1_VOLTAGE * 10 % 65536,
     get_unaligned_be16 data QUADRO_FAN2_VOLTAGE * 10 % 65536,
     get_unaligned_be16 data QUADRO_FAN3_VOLTAGE * 10 % 65536,
     get_unaligned_be16 data QUADRO_FAN4_VOLTAGE * 10 % 65536] ∧
  priv.current_input =
    [get_unaligned_be16 data QUADRO_FAN1_CURRENT,
     get_unaligned_be16 data QUADRO_FAN2_CURRENT,
     get_unaligned_be16 data QUADRO_FAN3_CURRENT,
     get_unaligned_be16 data QUADRO_FAN4_CURRENT]

/-- Range/divisibility invariants of a decoded snapshot: temperatures are
non-negative multiples of 10 bounded by 655350; fan powers are multiples of
10000 bounded by 655350000; voltages are even (the u16 store truncates ×10
modulo 2^16, which preserves only the factor 2 of the scaling). -/
def snapshot_invariants (priv : quadro_data) : Prop :=
  (∀ v ∈ priv.temp_input, 0 ≤ v ∧ (10 : Int) ∣ v ∧ v ≤ 655350) ∧
  (∀ v ∈ priv.power_input, 10000 ∣ v ∧ v ≤ 655350000) ∧
  (∀ v ∈ priv.voltage_input, 2 ∣ v)

/-! ## Concrete fixtures for witnesses and counterexamples -/

/-- Report with the spec's example raw values: temperature 250, flow speed
120, fan power 15. -/
def c1_data : List Nat :=
  set_be16 (set_be16 (set_be16 (zeros 161) QUADRO_TEMP1 250)
    QUADRO_FLOW_SPEED 120) QUADRO_FAN1_POWER 15

/-- The state c1_data decodes to (applied at time 3 to a probed device). -/
def c1_state : quadro_data :=
  (quadro_raw_event QUADRO_STATUS_REPORT_ID c1_data 3 (quadro_probe_state 0 0)).2

/-- Report with raw supply voltage 6554, whose ×10 scaling (65540) overflows
the u16 voltage store. -/
def c1_bad_data : List Nat := set_be16 (zeros 161) QUADRO_VOLTAGE 6554

/-- Report with raw fan-1 voltage 6554: its stored value 65540 % 65536 = 4 is
not a multiple of 10. -/
def c10_bad_data : List Nat := set_be16 (zeros 161) QUADRO_FAN1_VOLTAGE 6554

/-- Report with raw flow-speed value 125 (decodes to 12 by floor division). -/
def c9_data : List Nat := set_be16 (zeros 161) QUADRO_FLOW_SPEED 125

/-- The state c9_data decodes to (applied at time 3 to a probed device). -/
def c9_state : quadro_data :=
  (quadro_raw_event QUADRO_STATUS_REPORT_ID c9_data 3 (quadro_probe_state 0 0)).2

/-- A device state with every stored field nonzero, used to exhibit that a
short tag-matched report overwrites previously stored good data. -/
def c5_prior_state : quadro_data :=
  { temp_input := [1, 2, 3, 4],
    speed_input := [5, 6, 7, 8, 9],
    power_input := [10, 11, 12, 13],
    voltage_input := [14, 15, 16, 17, 18],
    current_input := [19, 20, 21, 22],
    serial_number := [23, 24],
    firmware_version := 25,
    power_cycles := 26,
    updated := 1 }

/-- The device state after the first report (an all-zero buffer) is applied
at time 0 to a freshly probed device. -/
def c2_state : quadro_data :=
  (quadro_raw_event QUADRO_STATUS_REPORT_ID (zeros 161) 0 (quadro_probe_state 0 0)).2

/-! ## Arithmetic helper lemmas -/

theorem getD_lt_256 {data : List Nat} (h : bytesWf data) (i : Nat) :
    data.getD i 0 < 256 := by
  rcases hx : data[i]? with _ | x
  · simp [List.getD_eq_getElem?_getD, hx]
  · have hm : x ∈ data := List.getElem?_mem hx
    simpa [List.getD_eq_getElem?_getD, hx] using h x hm

theorem be16_lt {data : List Nat} (h : bytesWf data) (off : Nat) :
    get_unaligned_be16 data off < 65536 := by
  have h1 := getD_lt_256 h off
  have h2 := getD_lt_256 h (off + 1)
  unfold get_unaligned_be16
  omega

theorem u16cast_eq_of_lt {n : Nat} (h : n < 65536) : u16cast n = n :=
  Nat.mod_eq_of_lt h

theorem u32cast_eq_of_lt {n : Nat} (h : n < 4294967296) : u32cast n = n :=
  Nat.mod_eq_of_lt h

theorem s32cast_eq_of_lt {n : Nat} (h : n < 2147483648) : s32cast n = (n : Int) := by
  unfold s32cast
  rw [Nat.mod_eq_of_lt (by omega)]
  simp [h]

theorem s32cast_be16_mul10 {data : List Nat} (h : bytesWf data) (off : Nat) :
    s32cast (get_unaligned_be16 data off * 10) =
      ((get_unaligned_be16 data off * 10 : Nat) : Int) := by
  have := be16_lt h off
  exact s32cast_eq_of_lt (by omega)

theorem u32cast_be16_mul10000 {data : List Nat} (h : bytesWf data) (off : Nat) :
    u32cast (get_unaligned_be16 data off * 10000) =
      get_unaligned_be16 data off * 10000 := by
  have := be16_lt h off
  exact u32cast_eq_of_lt (by omega)

theorem u16cast_be16 {data : List Nat} (h : bytesWf data) (off : Nat) :
    u16cast (get_unaligned_be16 data off) = get_unaligned_be16 data off := by
  have := be16_lt h off
  exact u16cast_eq_of_lt (by omega)

theorem u16cast_be16_div10 {data : List Nat} (h : bytesWf data) (off : Nat) :
    u16cast (get_unaligned_be16 data off / 10) =
      get_unaligned_be16 data off / 10 := by
  have := be16_lt h off
  exact u16cast_eq_of_lt (by omega)

/-! ## Claim theorems -/

set_option maxRecDepth 8192

/-- C3: a (kind, index) pair whose index is outside the fixed per-kind range
(Temperature=4, Speed=5, Power=4, Voltage=5, Current=4) is rejected with
ChannelNotFound by the registry gate before any other check, for every device
state, time, and tick rate — in particular regardless of freshness. -/
theorem c3_invalid_channel_not_found (st : quadro_data)
    (type : hwmon_sensor_types) (channel jiffies hz : Nat)
    (h : channel_count type ≤ channel) :
    hwmon_read st type channel jiffies hz = ReadResult.ChannelNotFound := by
  unfold hwmon_read
  rw [if_neg (by omega)]

/-- Witness for C3: channel 7 of the temperature kind (count 4) is rejected
on a freshly probed device. -/
theorem c3_invalid_channel_not_found_witness :
    channel_count hwmon_sensor_types.hwmon_temp ≤ 7 ∧
      hwmon_read (quadro_probe_state 0 0) hwmon_sensor_types.hwmon_temp 7 0 0 =
        ReadResult.ChannelNotFound :=
  ⟨by decide,
   c3_invalid_channel_not_found (quadro_probe_state 0 0)
     hwmon_sensor_types.hwmon_temp 7 0 0 (by decide)⟩

/-- C4: a raw report whose report id differs from QUADRO_STATUS_REPORT_ID is
a no-op for quadro_raw_event: the return value is 0 (success / not
applicable) and the device state — every snapshot value, every identity
field, and the updated timestamp — is returned unchanged. -/
theorem c4_tag_mismatch_noop (report_id : Nat) (data : List Nat)
    (jiffies : Nat) (st : quadro_data)
    (h : report_id ≠ QUADRO_STATUS_REPORT_ID) :
    quadro_raw_event report_id data jiffies st = (0, st) := by
  unfold quadro_raw_event
  rw [if_pos h]

/-- Witness for C4: report id 2 leaves a freshly probed state untouched. -/
theorem c4_tag_mismatch_noop_witness :
    (2 : Nat) ≠ QUADRO_STATUS_REPORT_ID ∧
      quadro_raw_event 2 (zeros 161) 99 (quadro_probe_state 0 0) =
        (0, quadro_probe_state 0 0) :=
  ⟨by decide, c4_tag_mismatch_noop 2 (zeros 161) 99 (quadro_probe_state 0 0) (by decide)⟩

/-- C5 (code bug): quadro_raw_event performs no length check whatsoever.  A
tag-matched buffer of 100 bytes is strictly shorter than the required
minimum (161 = largest offset 159 plus width 2), the decoder's access
footprint reaches byte indices at and beyond the buffer's end, and the
previous snapshot, identity and timestamp are all overwritten rather than
left untouched. -/
theorem c5_short_buffer_not_rejected :
    (zeros 100).length < quadro_min_report_length ∧
    (∃ i ∈ quadro_bytes_read, (zeros 100).length ≤ i) ∧
    (quadro_raw_event QUADRO_STATUS_REPORT_ID (zeros 100) 7 c5_prior_state).2 ≠
      c5_prior_state ∧
    (quadro_raw_event QUADRO_STATUS_REPORT_ID (zeros 100) 7 c5_prior_state).2.updated = 7 := by
  decide

/-- C2: after a tag-matched report is applied at time T, a valid (kind,
index) read at now = T + window (window = QUADRO_STATUS_UPDATE_INTERVAL =
2·HZ, two nominal one-second report intervals) still returns the stored
value — the boundary is inclusive — while a read at now = T + window + 1
returns Stale. -/
theorem c2_staleness_boundary (data : List Nat) (T hz : Nat)
    (st st' : quadro_data) (type : hwmon_sensor_types) (channel : Nat)
    (hch : channel < channel_count type)
    (hst : st' = (quadro_raw_event QUADRO_STATUS_REPORT_ID data T st).2) :
    hwmon_read st' type channel (T + QUADRO_STATUS_UPDATE_INTERVAL hz) hz =
      ReadResult.value (sensor_value st' type channel) ∧
    hwmon_read st' type channel (T + QUADRO_STATUS_UPDATE_INTERVAL hz + 1) hz =
      ReadResult.Stale := by
  have hupd : st'.updated = T := by
    subst hst
    simp [quadro_raw_event]
  unfold hwmon_read quadro_read time_after
  rw [hupd]
  constructor
  · rw [if_pos hch]
    simp
  · rw [if_pos hch]
    simp

/-- Witness for C2: with HZ = 100 the report applied at T = 0 is still
readable at now = 200 and stale at now = 201. -/
theorem c2_staleness_boundary_witness :
    (0 < channel_count hwmon_sensor_types.hwmon_temp) ∧
    (hwmon_read c2_state hwmon_sensor_types.hwmon_temp 0
        (0 + QUADRO_STATUS_UPDATE_INTERVAL 100) 100 =
      ReadResult.value (sensor_value c2_state hwmon_sensor_types.hwmon_temp 0) ∧
     hwmon_read c2_state hwmon_sensor_types.hwmon_temp 0
        (0 + QUADRO_STATUS_UPDATE_INTERVAL 100 + 1) 100 =
      ReadResult.Stale) :=
  ⟨by decide,
   c2_staleness_boundary (zeros 161) 0 100 (quadro_probe_state 0 0) c2_state
     hwmon_sensor_types.hwmon_temp 0 (by decide) rfl⟩

/-- C6 counterexample: on a freshly probed device (attach time 1000, HZ =
100, no report applied), a read at now = attach time returns the
zero-initialized value, not Stale: the probe timestamp `attach − window`
sits exactly on the inclusive freshness boundary, not outside the window. -/
theorem c6_read_at_attach_counterexample :
    hwmon_read (quadro_probe_state 1000 100) hwmon_sensor_types.hwmon_temp 0
        1000 100 = ReadResult.value 0 ∧
    hwmon_read (quadro_probe_state 1000 100) hwmon_sensor_types.hwmon_temp 0
        1000 100 ≠ ReadResult.Stale := by
  decide

/-- C6 (amended): after probe the stored timestamp is one full freshness
window in the past, which places an unread device exactly on the inclusive
staleness boundary: every valid (kind, index) read at any time strictly
after the attach time returns Stale (while a read at exactly the attach
instant still returns the zero-initialized value).  The hypothesis
`window ≤ attach` keeps truncated Nat subtraction in step with the wrapping
C subtraction. -/
theorem c6_stale_strictly_after_attach (attach hz now : Nat)
    (type : hwmon_sensor_types) (channel : Nat)
    (hwin : QUADRO_STATUS_UPDATE_INTERVAL hz ≤ attach)
    (hnow : attach < now) (hch : channel < channel_count type) :
    hwmon_read (quadro_probe_state attach hz) type channel now hz =
      ReadResult.Stale := by
  unfold hwmon_read quadro_read time_after quadro_probe_state
  rw [if_pos hch]
  have hcancel : attach - QUADRO_STATUS_UPDATE_INTERVAL hz +
      QUADRO_STATUS_UPDATE_INTERVAL hz = attach := Nat.sub_add_cancel hwin
  simp only [hcancel, hnow]
  simp

/-- Witness for C6 (amended): attach time 1000, HZ = 100, read at 1001. -/
theorem c6_stale_strictly_after_attach_witness :
    QUADRO_STATUS_UPDATE_INTERVAL 100 ≤ 1000 ∧ (1000 : Nat) < 1001 ∧
      0 < channel_count hwmon_sensor_types.hwmon_temp ∧
      hwmon_read (quadro_probe_state 1000 100) hwmon_sensor_types.hwmon_temp 0
          1001 100 = ReadResult.Stale :=
  ⟨by decide, by decide, by decide,
   c6_stale_strictly_after_attach 1000 100 1001 hwmon_sensor_types.hwmon_temp 0
     (by decide) (by decide) (by decide)⟩

/-- C7: for every (kind, index) with the index inside the fixed per-kind
range, the labelled read returns exactly the fixed, non-empty label string
of the static tables (so it is the same on every call); for every index
outside the range it returns none (ChannelNotFound). -/
theorem c7_labels_total_nonempty (type : hwmon_sensor_types) (channel : Nat) :
    if channel < channel_count type then
      hwmon_read_label type channel = some (quadro_read_string type channel) ∧
        quadro_read_string type channel ≠ ""
    else
      hwmon_read_label type channel = none := by
  by_cases h : channel < channel_count type
  · rw [if_pos h]
    refine ⟨by unfold hwmon_read_label; rw [if_pos h], ?_⟩
    cases type <;>
      · unfold channel_count at h
        interval_cases channel <;> decide
  · rw [if_neg h]
    unfold hwmon_read_label
    rw [if_neg h]

/-- C8: applying the same tag-matched raw report twice at two increasing
timestamps yields a state whose snapshot and identity values are identical
to those after the first apply; only the updated timestamp differs. -/
theorem c8_reapply_changes_only_timestamp (data : List Nat) (t1 t2 : Nat)
    (st s1 s2 : quadro_data) (h12 : t1 < t2)
    (hs1 : s1 = (quadro_raw_event QUADRO_STATUS_REPORT_ID data t1 st).2)
    (hs2 : s2 = (quadro_raw_event QUADRO_STATUS_REPORT_ID data t2 s1).2) :
    s2 = { s1 with updated := t2 } ∧ s1.updated ≠ s2.updated := by
  subst hs1 hs2
  refine ⟨rfl, ?_⟩
  unfold quadro_raw_event
  simp
  omega

/-- Witness for C8: the all-zero report applied at times 3 and then 5. -/
theorem c8_reapply_changes_only_timestamp_witness :
    (3 : Nat) < 5 ∧
    ((quadro_raw_event QUADRO_STATUS_REPORT_ID (zeros 161) 5
        (quadro_raw_event QUADRO_STATUS_REPORT_ID (zeros 161) 3
          (quadro_probe_state 0 0)).2).2 =
      { (quadro_raw_event QUADRO_STATUS_REPORT_ID (zeros 161) 3
          (quadro_probe_state 0 0)).2 with updated := 5 } ∧
    ((quadro_raw_event QUADRO_STATUS_REPORT_ID (zeros 161) 3
        (quadro_probe_state 0 0)).2).updated ≠
      ((quadro_raw_event QUADRO_STATUS_REPORT_ID (zeros 161) 5
        (quadro_raw_event QUADRO_STATUS_REPORT_ID (zeros 161) 3
          (quadro_probe_state 0 0)).2).2).updated) :=
  ⟨by decide,
   c8_reapply_changes_only_timestamp (zeros 161) 3 5 (quadro_probe_state 0 0)
     _ _ (by decide) rfl rfl⟩

/-- C9: the flow-speed scaling is truncating (floor) integer division: the
stored speed channel 0 equals ⌊raw / 10⌋ for the big-endian u16 raw value at
offset QUADRO_FLOW_SPEED = 110, characterized by the floor inequalities
10·v ≤ raw < 10·v + 10. -/
theorem c9_flow_truncating_division (data : List Nat) (jiffies : Nat)
    (st s' : quadro_data) (hwf : bytesWf data)
    (hs : s' = (quadro_raw_event QUADRO_STATUS_REPORT_ID data jiffies st).2) :
    s'.speed_input.getD 0 0 = get_unaligned_be16 data QUADRO_FLOW_SPEED / 10 ∧
    10 * s'.speed_input.getD 0 0 ≤ get_unaligned_be16 data QUADRO_FLOW_SPEED ∧
    get_unaligned_be16 data QUADRO_FLOW_SPEED <
      10 * s'.speed_input.getD 0 0 + 10 := by
  subst hs
  unfold quadro_raw_event
  simp only [ne_eq, not_true_eq_false, if_false, List.getD_cons_zero]
  simp only [u16cast_be16_div10 hwf]
  refine ⟨trivial, ?_, ?_⟩ <;> omega

/-- Witness for C9: the raw flow-speed value 125 decodes to 12 (not 13). -/
theorem c9_flow_truncating_division_witness :
    bytesWf c9_data ∧
    (c9_state.speed_input.getD 0 0 =
        get_unaligned_be16 c9_data QUADRO_FLOW_SPEED / 10 ∧
     10 * c9_state.speed_input.getD 0 0 ≤
        get_unaligned_be16 c9_data QUADRO_FLOW_SPEED ∧
     get_unaligned_be16 c9_data QUADRO_FLOW_SPEED <
        10 * c9_state.speed_input.getD 0 0 + 10) ∧
    c9_state.speed_input.getD 0 0 = 12 ∧
    get_unaligned_be16 c9_data QUADRO_FLOW_SPEED = 125 :=
  ⟨by decide,
   c9_flow_truncating_division c9_data 3 (quadro_probe_state 0 0) c9_state
     (by decide) rfl,
   by decide, by decide⟩

/-- C1 counterexample: the claim "each voltage is the raw u16 times 10" fails
because the voltage store is u16: a raw supply voltage of 6554 is stored as
65540 % 65536 = 4, not 65540. -/
theorem c1_voltage_times10_counterexample :
    get_unaligned_be16 c1_bad_data QUADRO_VOLTAGE = 6554 ∧
    ((quadro_raw_event QUADRO_STATUS_REPORT_ID c1_bad_data 5
        (quadro_probe_state 0 0)).2).voltage_input.getD 0 0 = 4 ∧
    ((quadro_raw_event QUADRO_STATUS_REPORT_ID c1_bad_data 5
        (quadro_probe_state 0 0)).2).voltage_input.getD 0 0 ≠ 6554 * 10 := by
  decide

/-- C1 (amended): decoding a well-formed tag-matched report stores the
per-field scaled values of the fixed offset table: temperatures (big-endian
u16 at 52/54/56/58) ×10, flow speed (u16 at 110) ÷10, fan speeds (u16 at
120/133/146/159) unscaled, fan powers (u16 at 118/131/144/157) ×10000,
supply and fan voltages (u16 at 108/114/127/140/153) ×10 reduced modulo
2^16 by the u16 store, and fan currents (u16 at 116/129/142/155)
unscaled. -/
theorem c1_decode_scaled_fields (data : List Nat) (jiffies : Nat)
    (st s' : quadro_data) (hwf : bytesWf data)
    (hs : s' = (quadro_raw_event QUADRO_STATUS_REPORT_ID data jiffies st).2) :
    decode_matches_table data s' := by
  subst hs
  unfold quadro_raw_event decode_matches_table
  simp only [ne_eq, not_true_eq_false, if_false]
  refine ⟨?_, ?_, ?_, ?_, ?_⟩
  · simp only [s32cast_be16_mul10 hwf]
  · simp only [u16cast_be16_div10 hwf, u16cast_be16 hwf]
  · simp only [u32cast_be16_mul10000 hwf]
  · simp only [u16cast]
  · simp only [u16cast_be16 hwf]

/-- Witness for C1 (amended): the spec's example raw values — temperature
250 decodes to 2500, flow speed 120 to 12, fan power 15 to 150000. -/
theorem c1_decode_scaled_fields_witness :
    bytesWf c1_data ∧ decode_matches_table c1_data c1_state ∧
    c1_state.temp_input.getD 0 0 = 2500 ∧
    c1_state.speed_input.getD 0 0 = 12 ∧
    c1_state.power_input.getD 0 0 = 150000 :=
  ⟨by decide,
   c1_decode_scaled_fields c1_data 3 (quadro_probe_state 0 0) c1_state
     (by decide) rfl,
   by decide, by decide, by decide⟩

/-- Every temperature element decoded from a well-formed report is a
non-negative multiple of 10 bounded by 655350. -/
theorem temp_element_invariant {data : List Nat} (h : bytesWf data) (off : Nat) :
    0 ≤ s32cast (get_unaligned_be16 data off * 10) ∧
    (10 : Int) ∣ s32cast (get_unaligned_be16 data off * 10) ∧
    s32cast (get_unaligned_be16 data off * 10) ≤ 655350 := by
  have hb := be16_lt h off
  rw [s32cast_be16_mul10 h]
  refine ⟨by omega,
    ⟨(get_unaligned_be16 data off : Int), by push_cast; ring⟩, by omega⟩

/-- Every fan-power element decoded from a well-formed report is a multiple
of 10000 bounded by 655350000. -/
theorem power_element_invariant {data : List Nat} (h : bytesWf data) (off : Nat) :
    10000 ∣ u32cast (get_unaligned_be16 data off * 10000) ∧
    u32cast (get_unaligned_be16 data off * 10000) ≤ 655350000 := by
  have hb := be16_lt h off
  rw [u32cast_be16_mul10000 h]
  exact ⟨dvd_mul_left 10000 _, by omega⟩

/-- Every voltage element is even: the ×10 scaling contributes a factor 2
that survives the u16 store's reduction modulo 2^16. -/
theorem voltage_element_invariant (data : List Nat) (off : Nat) :
    2 ∣ u16cast (get_unaligned_be16 data off * 10) := by
  unfold u16cast
  exact (Nat.dvd_mod_iff (by norm_num)).mpr
    ⟨get_unaligned_be16 data off * 5, by ring⟩

/-- C10 counterexample: the claim "every voltage value is a multiple of 10"
fails: a raw fan-1 voltage of 6554 is stored as 65540 % 65536 = 4, which is
not a multiple of 10. -/
theorem c10_voltage_multiple_counterexample :
    ((quadro_raw_event QUADRO_STATUS_REPORT_ID c10_bad_data 5
        (quadro_probe_state 0 0)).2).voltage_input.getD 1 0 = 4 ∧
    ¬ (10 ∣ ((quadro_raw_event QUADRO_STATUS_REPORT_ID c10_bad_data 5
        (quadro_probe_state 0 0)).2).voltage_input.getD 1 0) := by
  decide

/-- C10 (amended): after a successful decode of a well-formed report, every
temperature value is non-negative, a multiple of 10, and at most 655350;
every fan-power value is a multiple of 10000 and at most 655350000; and
every voltage value is a multiple of 2 (not, in general, of 10: the u16
voltage store truncates the ×10 scaling modulo 2^16). -/
theorem c10_snapshot_invariants (data : List Nat) (jiffies : Nat)
    (st s' : quadro_data) (hwf : bytesWf data)
    (hs : s' = (quadro_raw_event QUADRO_STATUS_REPORT_ID data jiffies st).2) :
    snapshot_invariants s' := by
  subst hs
  unfold quadro_raw_event snapshot_invariants
  simp only [ne_eq, not_true_eq_false, if_false]
  refine ⟨?_, ?_, ?_⟩
  · intro v hv
    simp only [List.mem_cons, List.not_mem_nil, or_false] at hv
    rcases hv with rfl | rfl | rfl | rfl
    · exact temp_element_invariant hwf QUADRO_TEMP1
    · exact temp_element_invariant hwf QUADRO_TEMP2
    · exact temp_element_invariant hwf QUADRO_TEMP3
    · exact temp_element_invariant hwf QUADRO_TEMP4
  · intro v hv
    simp only [List.mem_cons, List.not_mem_nil, or_false] at hv
    rcases hv with rfl | rfl | rfl | rfl
    · exact power_element_invariant hwf QUADRO_FAN1_POWER
    · exact power_element_invariant hwf QUADRO_FAN2_POWER
    · exact power_element_invariant hwf QUADRO_FAN3_POWER
    · exact power_element_invariant hwf QUADRO_FAN4_POWER
  · intro v hv
    simp only [List.mem_cons, List.not_mem_nil, or_false] at hv
    rcases hv with rfl | rfl | rfl | rfl | rfl
    · exact voltage_element_invariant data QUADRO_VOLTAGE
    · exact voltage_element_invariant data QUADRO_FAN1_VOLTAGE
    · exact voltage_element_invariant data QUADRO_FAN2_VOLTAGE
    · exact voltage_element_invariant data QUADRO_FAN3_VOLTAGE
    · exact voltage_element_invariant data QUADRO_FAN4_VOLTAGE

/-- Witness for C10 (amended): the invariants hold on the decoded example
report. -/
theorem c10_snapshot_invariants_witness :
    bytesWf c1_data ∧ snapshot_invariants c1_state :=
  ⟨by decide,
   c10_snapshot_invariants c1_data 3 (quadro_probe_state 0 0) c1_state
     (by decide) rfl⟩

end Quadro
